import Mathlib

/-!
Verification of the calculation engine of the UoM PASO redundancy
calculator (`src/app.py`).  The engine is a pipeline of pure functions:
date arithmetic (`full_months_between`, `age_on`), the redundancy-weeks
formula (`redundancy_weeks_paso_standard`), the tax-free cap
(`tax_free_cap`) and the gross/tax/net aggregation performed in the
module body (lines 372-399), which we package as `compute`.

Numbers are embedded as rationals (the Python source uses floats, but
every constant involved — 3.0, 0.25, 52.0, the cap tables — is exactly
representable and every operation is +, -, *, /, max, min, so the
rational semantics coincides with the ideal arithmetic the spec
describes).  Python `date` values are embedded as year/month/day triples
compared lexicographically, exactly as CPython compares `date` objects.
-/

namespace UomRedundancy

/-- A Python `datetime.date`: year, month, day.  Python compares dates
lexicographically on this triple. -/
structure PyDate where
  year : Int
  month : Int
  day : Int
deriving DecidableEq, Repr

/-- Python `d1 < d2` on dates: lexicographic on (year, month, day). -/
def PyDate.Lt (a b : PyDate) : Prop :=
  a.year < b.year ∨
    (a.year = b.year ∧ (a.month < b.month ∨ (a.month = b.month ∧ a.day < b.day)))

instance (a b : PyDate) : Decidable (PyDate.Lt a b) := by
  unfold PyDate.Lt
  exact inferInstance

/-- Python `d1 <= d2` on dates. -/
def PyDate.Le (a b : PyDate) : Prop :=
  PyDate.Lt a b ∨ a = b

instance (a b : PyDate) : Decidable (PyDate.Le a b) := by
  unfold PyDate.Le
  exact inferInstance

/-- A structurally valid calendar date: month in 1..12, day in 1..31
(Python's `date` constructor enforces this). -/
def PyDate.Valid (d : PyDate) : Prop :=
  1 ≤ d.month ∧ d.month ≤ 12 ∧ 1 ≤ d.day ∧ d.day ≤ 31

instance (d : PyDate) : Decidable (PyDate.Valid d) := by
  unfold PyDate.Valid
  exact inferInstance

/-- `weekly_pay` (app.py line 121): annual salary / 52. -/
def weekly_pay (annual_salary : ℚ) : ℚ :=
  annual_salary / 52

/-- `full_months_between` (app.py lines 124-130): 0 if `end < start`;
otherwise the calendar-month difference, minus 1 when the final month is
partial (`end.day < start.day`), floored at 0. -/
def full_months_between (start e : PyDate) : Int :=
  if PyDate.Lt e start then 0
  else
    let months := (e.year - start.year) * 12 + (e.month - start.month)
    let months' := if e.day < start.day then months - 1 else months
    max 0 months'

/-- `years_and_months_from_total` (app.py lines 132-135): Python `//` and
`%` are floor division and floor modulus, i.e. `Int.fdiv` / `Int.fmod`. -/
def years_and_months_from_total (total_months : Int) : Int × Int :=
  (total_months.fdiv 12, total_months.fmod 12)

/-- `age_on` (app.py lines 137-141): year difference, minus 1 when the
(month, day) pair of `on_date` is lexicographically before the birthday. -/
def age_on (dob on_date : PyDate) : Int :=
  let years := on_date.year - dob.year
  if on_date.month < dob.month ∨ (on_date.month = dob.month ∧ on_date.day < dob.day) then
    years - 1
  else
    years

/-- `redundancy_weeks_paso_standard` (app.py lines 143-155): returns
(weeks, years, months, age, is_45_plus). -/
def redundancy_weeks_paso_standard (start notice_date dob : PyDate) :
    ℚ × Int × Int × Int × Bool :=
  let total_months := full_months_between start notice_date
  let ym := years_and_months_from_total total_months
  let yrs := ym.1
  let mos := ym.2
  let base_weeks : ℚ := 3 * (yrs : ℚ) + (1 / 4) * (mos : ℚ)
  let a := age_on dob notice_date
  let is_45_plus : Bool := decide (45 ≤ a)
  let weeks := base_weeks + (if is_45_plus then 2 else 0)
  let weeks' := if 0 < weeks then max 14 (min 52 weeks) else weeks
  (weeks', yrs, mos, a, is_45_plus)

/-- The `FY_CAPS` table (app.py lines 95-99) as a lookup returning the
(base, service) pair, `none` for an unknown key (Python `dict.get`). -/
def FY_CAPS (fy : String) : Option (ℚ × ℚ) :=
  if fy = "2025-26" then some (13100, 6552)
  else if fy = "2024-25" then some (12524, 6264)
  else if fy = "2023-24" then some (11985, 5994)
  else none

/-- The resolved cap base constant: the override when present, else the
table entry, else 0 (app.py line 163). -/
def cap_base_resolved (fy : String) (base_override : Option ℚ) : ℚ :=
  match base_override with
  | some b => b
  | none =>
    match FY_CAPS fy with
    | some c => c.1
    | none => 0

/-- The resolved per-service-year cap constant: the override when
present, else the table entry, else 0 (app.py line 164). -/
def cap_svc_resolved (fy : String) (svc_override : Option ℚ) : ℚ :=
  match svc_override with
  | some s => s
  | none =>
    match FY_CAPS fy with
    | some c => c.2
    | none => 0

/-- `tax_free_cap` (app.py lines 157-165): resolved base plus resolved
per-service-year amount times completed years. -/
def tax_free_cap (fy : String) (completed_years : Int)
    (base_override svc_override : Option ℚ) : ℚ :=
  cap_base_resolved fy base_override + cap_svc_resolved fy svc_override * (completed_years : ℚ)

/-- The calculation inputs read from the sidebar widgets
(app.py lines 292-367). -/
structure Inputs where
  annual_salary : ℚ
  dob : PyDate
  start_date : PyDate
  notice_date : PyDate
  notice_weeks : ℚ
  notice_paid_in_lieu : Bool
  al_days : ℚ
  lsl_weeks : ℚ
  include_al_loading : Bool
  al_loading_pct : ℚ
  fy : String
  cap_base : ℚ
  cap_service : ℚ
  under_pres : Bool
  etp_tax_u : ℚ
  etp_tax_o : ℚ
  leave_withholding : ℚ

/-- The `Results` dataclass (app.py lines 261-284). -/
structure Results where
  weekly : ℚ
  day_rate : ℚ
  service_years : Int
  service_months : Int
  age : Int
  is_45_plus : Bool
  redundancy_weeks : ℚ
  redundancy_gross : ℚ
  notice_gross : ℚ
  al_gross : ℚ
  lsl_gross : ℚ
  al_loading_gross : ℚ
  leave_gross : ℚ
  etp_gross : ℚ
  cap : ℚ
  etp_taxable : ℚ
  etp_tax : ℚ
  leave_tax : ℚ
  notice_tax : ℚ
  total_gross : ℚ
  total_tax : ℚ
  total_net : ℚ

/-- The compute section of the module body (app.py lines 372-426),
building the `Results` record from the inputs. -/
def compute (i : Inputs) : Results :=
  let w := weekly_pay i.annual_salary
  let day_rate := w / 5
  let r := redundancy_weeks_paso_standard i.start_date i.notice_date i.dob
  let red_weeks := r.1
  let svc_years := r.2.1
  let svc_months := r.2.2.1
  let age := r.2.2.2.1
  let is_45_plus := r.2.2.2.2
  let redundancy_gross := red_weeks * w
  let notice_gross := i.notice_weeks * w
  let al_gross := i.al_days * day_rate
  let lsl_gross := i.lsl_weeks * w
  let al_loading_gross := if i.include_al_loading then i.al_loading_pct * al_gross else 0
  let leave_gross := al_gross + lsl_gross + al_loading_gross
  let etp_gross := redundancy_gross + (if i.notice_paid_in_lieu then notice_gross else 0)
  let cap := tax_free_cap i.fy svc_years (some i.cap_base) (some i.cap_service)
  let etp_taxable := max 0 (etp_gross - cap)
  let etp_rate := if i.under_pres then i.etp_tax_u else i.etp_tax_o
  let etp_tax := etp_taxable * etp_rate
  let leave_tax := leave_gross * i.leave_withholding
  let notice_tax := if i.notice_paid_in_lieu then 0 else notice_gross * i.leave_withholding
  let total_gross := redundancy_gross + notice_gross + leave_gross
  let total_tax := etp_tax + leave_tax + notice_tax
  let total_net := total_gross - total_tax
  { weekly := w
    day_rate := day_rate
    service_years := svc_years
    service_months := svc_months
    age := age
    is_45_plus := is_45_plus
    redundancy_weeks := red_weeks
    redundancy_gross := redundancy_gross
    notice_gross := notice_gross
    al_gross := al_gross
    lsl_gross := lsl_gross
    al_loading_gross := al_loading_gross
    leave_gross := leave_gross
    etp_gross := etp_gross
    cap := cap
    etp_taxable := etp_taxable
    etp_tax := etp_tax
    leave_tax := leave_tax
    notice_tax := notice_tax
    total_gross := total_gross
    total_tax := total_tax
    total_net := total_net }

/-- The numeric-input constraints enforced by the sidebar widgets
(`min_value` / `max_value` arguments, app.py lines 292-367): cash
quantities non-negative, percentages and rates in [0, 1], cap constants
non-negative — the spec's §3 data model. -/
def Inputs.Valid (i : Inputs) : Prop :=
  0 ≤ i.annual_salary ∧ 0 ≤ i.notice_weeks ∧ 0 ≤ i.al_days ∧ 0 ≤ i.lsl_weeks ∧
  0 ≤ i.al_loading_pct ∧ i.al_loading_pct ≤ 1 ∧
  0 ≤ i.cap_base ∧ 0 ≤ i.cap_service ∧
  0 ≤ i.etp_tax_u ∧ i.etp_tax_u ≤ 1 ∧
  0 ≤ i.etp_tax_o ∧ i.etp_tax_o ≤ 1 ∧
  0 ≤ i.leave_withholding ∧ i.leave_withholding ≤ 1

/-- The raw (pre-clamp) redundancy-weeks value of app.py lines 147-151:
`3*years + 0.25*months` plus the 2-week bonus exactly when the age on
the notice date is at least 45. -/
def raw_weeks (start notice_date dob : PyDate) : ℚ :=
  3 * ((years_and_months_from_total (full_months_between start notice_date)).1 : ℚ) +
    (1 / 4) * ((years_and_months_from_total (full_months_between start notice_date)).2 : ℚ) +
    (if 45 ≤ age_on dob notice_date then 2 else 0)

/-- Concrete input whose ETP pool (0) is below its cap (1): zero salary,
zero service, positive cap base. -/
def wit_input_c3 : Inputs :=
  { annual_salary := 0, dob := ⟨1994, 1, 1⟩, start_date := ⟨2024, 1, 1⟩,
    notice_date := ⟨2024, 1, 1⟩, notice_weeks := 0, notice_paid_in_lieu := true,
    al_days := 0, lsl_weeks := 0, include_al_loading := false, al_loading_pct := 0,
    fy := "2025-26", cap_base := 1, cap_service := 0, under_pres := true,
    etp_tax_u := 1, etp_tax_o := 0, leave_withholding := 1 }

/-- Concrete input with positive notice pay (weekly pay 1, one notice
week) and notice paid in lieu. -/
def wit_input_c4 : Inputs :=
  { annual_salary := 52, dob := ⟨1994, 1, 1⟩, start_date := ⟨2024, 1, 1⟩,
    notice_date := ⟨2024, 1, 1⟩, notice_weeks := 1, notice_paid_in_lieu := true,
    al_days := 0, lsl_weeks := 0, include_al_loading := false, al_loading_pct := 0,
    fy := "2025-26", cap_base := 0, cap_service := 0, under_pres := true,
    etp_tax_u := 0, etp_tax_o := 0, leave_withholding := 1 }

/-- Concrete widget-valid input with every component active and notice
not paid in lieu. -/
def wit_input_c5 : Inputs :=
  { annual_salary := 52, dob := ⟨1970, 1, 1⟩, start_date := ⟨2015, 1, 1⟩,
    notice_date := ⟨2024, 1, 1⟩, notice_weeks := 1, notice_paid_in_lieu := false,
    al_days := 1, lsl_weeks := 1, include_al_loading := true, al_loading_pct := 1,
    fy := "2025-26", cap_base := 1, cap_service := 1, under_pres := true,
    etp_tax_u := 1, etp_tax_o := 0, leave_withholding := 1 }

/-- Concrete widget-valid input at the harsh end: zero cap and rates of
1 everywhere. -/
def wit_input_c10 : Inputs :=
  { annual_salary := 52, dob := ⟨1970, 1, 1⟩, start_date := ⟨2015, 1, 1⟩,
    notice_date := ⟨2024, 1, 1⟩, notice_weeks := 1, notice_paid_in_lieu := true,
    al_days := 1, lsl_weeks := 1, include_al_loading := true, al_loading_pct := 1,
    fy := "2024-25", cap_base := 0, cap_service := 0, under_pres := false,
    etp_tax_u := 1, etp_tax_o := 1, leave_withholding := 1 }

/-! ## Supporting lemmas -/

/-- The weeks component of `redundancy_weeks_paso_standard` is the raw
formula value, clamped into [14, 52] exactly when it is positive. -/
lemma redundancy_weeks_eq (start notice_date dob : PyDate) :
    (redundancy_weeks_paso_standard start notice_date dob).1 =
      if 0 < raw_weeks start notice_date dob
      then max 14 (min 52 (raw_weeks start notice_date dob))
      else raw_weeks start notice_date dob := by
  unfold redundancy_weeks_paso_standard raw_weeks
  simp only [decide_eq_true_eq]

/-- Closed form of `full_months_between` when the end date is not before
the start date: the signed month difference minus the partial-month
indicator, floored at 0. -/
lemma fmb_else (s e : PyDate) (h : ¬ PyDate.Lt e s) :
    full_months_between s e =
      max 0 ((e.year - s.year) * 12 + (e.month - s.month) -
        (if e.day < s.day then 1 else 0)) := by
  unfold full_months_between
  rw [if_neg h]
  simp only []
  split_ifs with hd <;> omega

/-- The month count is never negative (the code floors it at 0). -/
lemma full_months_between_nonneg (start e : PyDate) :
    0 ≤ full_months_between start e := by
  unfold full_months_between
  split
  · exact le_refl 0
  · exact le_max_left 0 _

/-- The completed-years component is non-negative when the total is. -/
lemma years_nonneg {t : Int} (ht : 0 ≤ t) :
    0 ≤ (years_and_months_from_total t).1 :=
  Int.fdiv_nonneg ht (by norm_num)

/-- The remainder-months component is non-negative when the total is. -/
lemma months_nonneg {t : Int} (ht : 0 ≤ t) :
    0 ≤ (years_and_months_from_total t).2 :=
  Int.fmod_nonneg ht (by norm_num)

/-- The raw formula value is non-negative: completed years and months
are non-negative and the age bonus is 0 or 2. -/
lemma raw_weeks_nonneg (start notice_date dob : PyDate) :
    0 ≤ raw_weeks start notice_date dob := by
  have hy : (0 : ℚ) ≤ ((years_and_months_from_total
      (full_months_between start notice_date)).1 : ℚ) := by
    exact_mod_cast years_nonneg (full_months_between_nonneg start notice_date)
  have hm : (0 : ℚ) ≤ ((years_and_months_from_total
      (full_months_between start notice_date)).2 : ℚ) := by
    exact_mod_cast months_nonneg (full_months_between_nonneg start notice_date)
  unfold raw_weeks
  split_ifs <;> nlinarith

/-- The redundancy-weeks result is never negative: it is either the raw
formula value or the clamped value, which is at least 14. -/
lemma redundancy_weeks_nonneg (start notice_date dob : PyDate) :
    0 ≤ (redundancy_weeks_paso_standard start notice_date dob).1 := by
  rw [redundancy_weeks_eq]
  split_ifs with h
  · exact le_trans (by norm_num) (le_max_left 14 _)
  · exact raw_weeks_nonneg start notice_date dob

/-! ## Claim theorems -/

/-- C6: `full_months_between` returns 0 when `end < start`, and otherwise
the calendar-month difference `(Δyear)*12 + (Δmonth)` minus an indicator
for a partial final month (`end.day < start.day`), floored at 0 — exact
calendar-month truncation, no day-count rounding. -/
theorem C6_full_months_between_spec (s e : PyDate) :
    (PyDate.Lt e s → full_months_between s e = 0) ∧
    (¬ PyDate.Lt e s →
      full_months_between s e =
        max 0 ((e.year - s.year) * 12 + (e.month - s.month) -
          (if e.day < s.day then 1 else 0))) := by
  constructor
  · intro h
    unfold full_months_between
    rw [if_pos h]
  · intro h
    exact fmb_else s e h

/-- C6 witness: for the concrete reversed pair (start 2024-01-01,
end 2023-06-15) the end precedes the start and the result is 0. -/
theorem C6_witness :
    full_months_between ⟨2024, 1, 1⟩ ⟨2023, 6, 15⟩ = 0 :=
  (C6_full_months_between_spec ⟨2024, 1, 1⟩ ⟨2023, 6, 15⟩).1 (by decide)

/-- C7: the tax-free cap is the resolved base constant plus the resolved
per-service-year constant times the completed years (months ignored), so
advancing the completed-years count by one adds exactly the
per-service-year constant. -/
theorem C7_tax_free_cap_linear (fy : String) (y : Int)
    (base_override svc_override : Option ℚ) :
    tax_free_cap fy y base_override svc_override =
      cap_base_resolved fy base_override + cap_svc_resolved fy svc_override * (y : ℚ) ∧
    tax_free_cap fy (y + 1) base_override svc_override =
      tax_free_cap fy y base_override svc_override + cap_svc_resolved fy svc_override := by
  refine ⟨rfl, ?_⟩
  unfold tax_free_cap
  push_cast
  ring

/-- C9: for a fiscal-year label outside the configured table and absent
overrides, the resolved constants are both 0, so the cap is 0 for every
completed-years count; the lookup is total and never raises. -/
theorem C9_unknown_fy_cap_zero (fy : String) (h : FY_CAPS fy = none) (y : Int) :
    tax_free_cap fy y none none = 0 := by
  unfold tax_free_cap cap_base_resolved cap_svc_resolved
  rw [h]
  ring

/-- C9 witness: the label "1999-00" is not in the table and yields cap 0
at 5 completed years. -/
theorem C9_witness : tax_free_cap "1999-00" 5 none none = 0 :=
  C9_unknown_fy_cap_zero "1999-00" (by rfl) 5

/-- C1: redundancy weeks are the raw value `3*Y + 0.25*M` plus a 2-week
bonus exactly when the age on the notice date is at least 45
(`raw_weeks`), clamped into [14, 52] exactly when the raw value is
positive (a raw value of 0 is returned unclamped); consequently a
positive result always lies in [14, 52]. -/
theorem C1_redundancy_formula_clamp (start notice_date dob : PyDate) :
    (redundancy_weeks_paso_standard start notice_date dob).1 =
      (if 0 < raw_weeks start notice_date dob
       then max 14 (min 52 (raw_weeks start notice_date dob))
       else raw_weeks start notice_date dob) ∧
    (0 < (redundancy_weeks_paso_standard start notice_date dob).1 →
      14 ≤ (redundancy_weeks_paso_standard start notice_date dob).1 ∧
      (redundancy_weeks_paso_standard start notice_date dob).1 ≤ 52) := by
  refine ⟨redundancy_weeks_eq start notice_date dob, ?_⟩
  intro hpos
  rw [redundancy_weeks_eq] at hpos ⊢
  by_cases h : 0 < raw_weeks start notice_date dob
  · rw [if_pos h]
    exact ⟨le_max_left 14 _, max_le (by norm_num) (min_le_left 52 _)⟩
  · rw [if_neg h] at hpos
    exact absurd hpos h

/-- C1 witness: for service 2015-01-01 → 2024-01-01 and birth date
1994-01-01 the result (27 weeks) is positive and lies in [14, 52]. -/
theorem C1_witness :
    0 < (redundancy_weeks_paso_standard ⟨2015, 1, 1⟩ ⟨2024, 1, 1⟩ ⟨1994, 1, 1⟩).1 ∧
    14 ≤ (redundancy_weeks_paso_standard ⟨2015, 1, 1⟩ ⟨2024, 1, 1⟩ ⟨1994, 1, 1⟩).1 ∧
    (redundancy_weeks_paso_standard ⟨2015, 1, 1⟩ ⟨2024, 1, 1⟩ ⟨1994, 1, 1⟩).1 ≤ 52 := by
  have hpos : 0 < (redundancy_weeks_paso_standard ⟨2015, 1, 1⟩ ⟨2024, 1, 1⟩ ⟨1994, 1, 1⟩).1 := by
    norm_num [redundancy_weeks_paso_standard, years_and_months_from_total, full_months_between,
      age_on, PyDate.Lt, show Int.fdiv 108 12 = 9 from by decide,
      show Int.fmod 108 12 = 0 from by decide]
  exact ⟨hpos, (C1_redundancy_formula_clamp ⟨2015, 1, 1⟩ ⟨2024, 1, 1⟩ ⟨1994, 1, 1⟩).2 hpos⟩

/-- C2 counterexample: with start = notice = 2024-01-01 and birth date
1970-01-01 (age 54 on the notice date, zero completed service) the code
returns 14 weeks, not 0 — the 45+ bonus of 2 weeks is positive, so the
14-week floor kicks in.  This refutes the claim that every employee with
`start == notice` gets exactly 0 regardless of date of birth. -/
theorem C2_counterexample :
    (redundancy_weeks_paso_standard ⟨2024, 1, 1⟩ ⟨2024, 1, 1⟩ ⟨1970, 1, 1⟩).1 = 14 ∧
    (14 : ℚ) ≠ 0 := by
  constructor
  · norm_num [redundancy_weeks_paso_standard, years_and_months_from_total, full_months_between,
      age_on, PyDate.Lt]
  · norm_num

/-- C2 amended: if the start date equals the notice date then completed
months are 0, and the weeks result is 0 exactly when the employee is
under 45 on the notice date; an employee aged 45 or over gets the 2-week
bonus, which the floor then lifts to 14. -/
theorem C2_zero_service (d dob : PyDate) :
    full_months_between d d = 0 ∧
    (age_on dob d < 45 → (redundancy_weeks_paso_standard d d dob).1 = 0) ∧
    (45 ≤ age_on dob d → (redundancy_weeks_paso_standard d d dob).1 = 14) := by
  have hlt : ¬ PyDate.Lt d d := by unfold PyDate.Lt; omega
  have h0 : full_months_between d d = 0 := by
    rw [fmb_else d d hlt]
    split_ifs <;> omega
  have hraw : raw_weeks d d dob = (if 45 ≤ age_on dob d then 2 else 0) := by
    unfold raw_weeks
    rw [h0]
    simp [years_and_months_from_total]
  refine ⟨h0, ?_, ?_⟩
  · intro hage
    rw [redundancy_weeks_eq, hraw, if_neg (not_le.2 hage)]
    norm_num
  · intro hage
    rw [redundancy_weeks_eq, hraw, if_pos hage]
    norm_num

/-- C2 witness: for start = notice = 2024-01-01 and birth date
1994-01-01 (age 30, under 45) the weeks result is exactly 0. -/
theorem C2_witness :
    (redundancy_weeks_paso_standard ⟨2024, 1, 1⟩ ⟨2024, 1, 1⟩ ⟨1994, 1, 1⟩).1 = 0 :=
  (C2_zero_service ⟨2024, 1, 1⟩ ⟨1994, 1, 1⟩).2.1 (by decide)

/-- Lexicographic date order: `≤` composed with `<` gives `<`. -/
lemma pydate_le_trans_lt {a b c : PyDate} (h1 : PyDate.Le a b) (h2 : PyDate.Lt b c) :
    PyDate.Lt a c := by
  rcases h1 with h1 | rfl
  · unfold PyDate.Lt at *
    rcases h1 with h1 | ⟨hy, h1⟩ <;> rcases h2 with h2 | ⟨hy2, h2⟩ <;> omega
  · exact h2

/-- C8: for a fixed start date, `full_months_between` is monotonically
non-decreasing as the (structurally valid) end date advances in the
calendar order. -/
theorem C8_full_months_between_monotone (s e1 e2 : PyDate)
    (hv1 : PyDate.Valid e1) (hv2 : PyDate.Valid e2)
    (hle : PyDate.Le e1 e2) :
    full_months_between s e1 ≤ full_months_between s e2 := by
  obtain ⟨hm1l, hm1r, -, -⟩ := hv1
  obtain ⟨hm2l, hm2r, -, -⟩ := hv2
  by_cases h1 : PyDate.Lt e1 s
  · calc full_months_between s e1 = 0 := by unfold full_months_between; rw [if_pos h1]
      _ ≤ full_months_between s e2 := full_months_between_nonneg s e2
  · have h2 : ¬ PyDate.Lt e2 s := fun hc => h1 (pydate_le_trans_lt hle hc)
    rw [fmb_else s e1 h1, fmb_else s e2 h2]
    rcases hle with hlt | rfl
    · unfold PyDate.Lt at hlt
      split_ifs <;> omega
    · exact le_rfl

/-- C8 witness: with start 2021-10-11, advancing the end date from
2023-06-15 to 2024-02-10 does not decrease the completed-month count. -/
theorem C8_witness :
    PyDate.Valid ⟨2023, 6, 15⟩ ∧ PyDate.Valid ⟨2024, 2, 10⟩ ∧
    PyDate.Le ⟨2023, 6, 15⟩ ⟨2024, 2, 10⟩ ∧
    full_months_between ⟨2021, 10, 11⟩ ⟨2023, 6, 15⟩ ≤
      full_months_between ⟨2021, 10, 11⟩ ⟨2024, 2, 10⟩ :=
  ⟨by decide, by decide, by decide,
    C8_full_months_between_monotone ⟨2021, 10, 11⟩ ⟨2023, 6, 15⟩ ⟨2024, 2, 10⟩
      (by decide) (by decide) (by decide)⟩

/-- The completed-years component of the redundancy tuple is the years
part of the split month count. -/
lemma redundancy_years_eq (start notice_date dob : PyDate) :
    (redundancy_weeks_paso_standard start notice_date dob).2.1 =
      (years_and_months_from_total (full_months_between start notice_date)).1 := rfl

/-- Under the widget constraints the total tax is non-negative and never
exceeds the total gross: each tax component is a [0,1] fraction of a
non-negative pool, and the two notice buckets never overlap. -/
lemma compute_total_tax_bounds {i : Inputs} (hv : i.Valid) :
    0 ≤ (compute i).total_tax ∧ (compute i).total_tax ≤ (compute i).total_gross := by
  obtain ⟨hsal, hnw, hald, hlslw, hpct, hpct1, hcb, hcs, hru, hru1, hro, hro1, hlw, hlw1⟩ := hv
  simp only [compute, weekly_pay, tax_free_cap, cap_base_resolved, cap_svc_resolved]
  set w := i.annual_salary / 52 with hw_def
  set wk := (redundancy_weeks_paso_standard i.start_date i.notice_date i.dob).1 with hwk_def
  set ys := (redundancy_weeks_paso_standard i.start_date i.notice_date i.dob).2.1 with hys_def
  set rg := wk * w with hrg_def
  set ng := i.notice_weeks * w with hng_def
  set alg := i.al_days * (w / 5) with halg_def
  set lslg := i.lsl_weeks * w with hlslg_def
  set allg := if i.include_al_loading then i.al_loading_pct * alg else 0 with hallg_def
  set eg := rg + (if i.notice_paid_in_lieu then ng else 0) with heg_def
  set cap := i.cap_base + i.cap_service * (ys : ℚ) with hcap_def
  set txb := max 0 (eg - cap) with htxb_def
  set rate := if i.under_pres then i.etp_tax_u else i.etp_tax_o with hrate_def
  set nt := if i.notice_paid_in_lieu then (0 : ℚ) else ng * i.leave_withholding with hnt_def
  have hw0 : 0 ≤ w := div_nonneg hsal (by norm_num)
  have hwk0 : 0 ≤ wk := by
    rw [hwk_def]; exact redundancy_weeks_nonneg i.start_date i.notice_date i.dob
  have hys0 : (0 : ℚ) ≤ (ys : ℚ) := by
    rw [hys_def, redundancy_years_eq]
    exact_mod_cast years_nonneg (full_months_between_nonneg i.start_date i.notice_date)
  have hrg0 : 0 ≤ rg := by rw [hrg_def]; exact mul_nonneg hwk0 hw0
  have hng0 : 0 ≤ ng := by rw [hng_def]; exact mul_nonneg hnw hw0
  have halg0 : 0 ≤ alg := by
    rw [halg_def]; exact mul_nonneg hald (div_nonneg hw0 (by norm_num))
  have hlslg0 : 0 ≤ lslg := by rw [hlslg_def]; exact mul_nonneg hlslw hw0
  have hallg0 : 0 ≤ allg := by
    rw [hallg_def]
    split_ifs
    · exact mul_nonneg hpct halg0
    · exact le_rfl
  have hlg0 : 0 ≤ alg + lslg + allg := add_nonneg (add_nonneg halg0 hlslg0) hallg0
  have heg0 : 0 ≤ eg := by
    rw [heg_def]
    split_ifs
    · exact add_nonneg hrg0 hng0
    · exact add_nonneg hrg0 le_rfl
  have hcap0 : 0 ≤ cap := by rw [hcap_def]; exact add_nonneg hcb (mul_nonneg hcs hys0)
  have hrate01 : 0 ≤ rate ∧ rate ≤ 1 := by
    rw [hrate_def]
    split_ifs
    · exact ⟨hru, hru1⟩
    · exact ⟨hro, hro1⟩
  have htxb0 : 0 ≤ txb := by rw [htxb_def]; exact le_max_left 0 _
  have htxb_le : txb ≤ eg := by rw [htxb_def]; exact max_le heg0 (by linarith)
  have hetp0 : 0 ≤ txb * rate := mul_nonneg htxb0 hrate01.1
  have hetp_le : txb * rate ≤ txb := mul_le_of_le_one_right htxb0 hrate01.2
  have hleave0 : 0 ≤ (alg + lslg + allg) * i.leave_withholding := mul_nonneg hlg0 hlw
  have hleave_le : (alg + lslg + allg) * i.leave_withholding ≤ alg + lslg + allg :=
    mul_le_of_le_one_right hlg0 hlw1
  have hnt_bounds : 0 ≤ nt ∧ txb * rate + nt ≤ rg + ng := by
    rw [hnt_def]
    split_ifs with hfl
    · have heq : eg = rg + ng := by rw [heg_def, if_pos hfl]
      exact ⟨le_rfl, by linarith⟩
    · have heq : eg = rg := by rw [heg_def, if_neg hfl, add_zero]
      have hntle : ng * i.leave_withholding ≤ ng := mul_le_of_le_one_right hng0 hlw1
      exact ⟨mul_nonneg hng0 hlw, by linarith⟩
  constructor
  · linarith [hnt_bounds.1]
  · linarith [hnt_bounds.2]

/-- C3: the taxable ETP equals `max(0, etpGross − cap)`, and whenever the
ETP pool is within the cap both the taxable ETP and the ETP tax are 0,
for every input (hence regardless of rates and the preservation-age
flag). -/
theorem C3_taxable_etp (i : Inputs) :
    (compute i).etp_taxable = max 0 ((compute i).etp_gross - (compute i).cap) ∧
    ((compute i).etp_gross ≤ (compute i).cap →
      (compute i).etp_taxable = 0 ∧ (compute i).etp_tax = 0) := by
  constructor
  · simp only [compute]
  · intro h
    simp only [compute] at h ⊢
    constructor
    · exact max_eq_left (sub_nonpos.mpr h)
    · rw [max_eq_left (sub_nonpos.mpr h), zero_mul]

/-- C3 witness: with zero salary and cap 1 the pool (0) is within the
cap, and both taxable ETP and ETP tax are 0. -/
theorem C3_witness :
    (compute wit_input_c3).etp_gross ≤ (compute wit_input_c3).cap ∧
    (compute wit_input_c3).etp_taxable = 0 ∧ (compute wit_input_c3).etp_tax = 0 := by
  have h : (compute wit_input_c3).etp_gross ≤ (compute wit_input_c3).cap := by
    norm_num [wit_input_c3, compute, weekly_pay, tax_free_cap, cap_base_resolved,
      cap_svc_resolved, redundancy_weeks_paso_standard, years_and_months_from_total,
      full_months_between, age_on, PyDate.Lt]
  exact ⟨h, (C3_taxable_etp wit_input_c3).2 h⟩

/-- C4: when notice pay is positive it is taxed in exactly one bucket:
paid in lieu puts it inside the ETP pool with zero notice withholding,
not in lieu keeps it out of the pool and withholds it at the leave
rate — never both, never neither. -/
theorem C4_notice_bucket (i : Inputs) (h : 0 < (compute i).notice_gross) :
    (i.notice_paid_in_lieu = true →
      (compute i).etp_gross = (compute i).redundancy_gross + (compute i).notice_gross ∧
      (compute i).notice_tax = 0) ∧
    (i.notice_paid_in_lieu = false →
      (compute i).etp_gross = (compute i).redundancy_gross ∧
      (compute i).notice_tax = (compute i).notice_gross * i.leave_withholding) := by
  constructor <;> intro hb <;> simp [compute, hb]

/-- C4 witness: with weekly pay 1, one notice week and in-lieu true, the
notice gross (1) is positive, sits inside the ETP pool, and the notice
withholding is 0. -/
theorem C4_witness :
    0 < (compute wit_input_c4).notice_gross ∧
    (compute wit_input_c4).etp_gross =
      (compute wit_input_c4).redundancy_gross + (compute wit_input_c4).notice_gross ∧
    (compute wit_input_c4).notice_tax = 0 := by
  have h : 0 < (compute wit_input_c4).notice_gross := by
    norm_num [wit_input_c4, compute, weekly_pay]
  exact ⟨h, (C4_notice_bucket wit_input_c4 h).1 rfl⟩

/-- C5: the aggregates: total gross is redundancy + notice + leave
(notice pay always included, unlike the ETP pool), total tax is the sum
of the three tax components, total net is gross minus tax, and under the
widget constraints the total tax is non-negative. -/
theorem C5_aggregates (i : Inputs) (hv : i.Valid) :
    (compute i).total_gross =
      (compute i).redundancy_gross + (compute i).notice_gross + (compute i).leave_gross ∧
    (compute i).total_tax =
      (compute i).etp_tax + (compute i).leave_tax + (compute i).notice_tax ∧
    (compute i).total_net = (compute i).total_gross - (compute i).total_tax ∧
    0 ≤ (compute i).total_tax := by
  refine ⟨?_, ?_, ?_, (compute_total_tax_bounds hv).1⟩ <;> simp only [compute]

/-- C5 witness: a concrete widget-valid input on which the total tax is
non-negative. -/
theorem C5_witness :
    wit_input_c5.Valid ∧ 0 ≤ (compute wit_input_c5).total_tax := by
  have hv : wit_input_c5.Valid := by norm_num [Inputs.Valid, wit_input_c5]
  exact ⟨hv, (C5_aggregates wit_input_c5 hv).2.2.2⟩

/-- C10: under the widget constraints (non-negative cash inputs, rates
in [0,1]) the computed total net is non-negative: the total tax never
exceeds the total gross. -/
theorem C10_total_net_nonneg (i : Inputs) (hv : i.Valid) :
    0 ≤ (compute i).total_net := by
  have hb := (compute_total_tax_bounds hv).2
  have he : (compute i).total_net = (compute i).total_gross - (compute i).total_tax := by
    simp only [compute]
  rw [he]
  linarith

/-- C10 witness: a concrete widget-valid input with maximal rates and a
zero cap still nets a non-negative payout. -/
theorem C10_witness :
    wit_input_c10.Valid ∧ 0 ≤ (compute wit_input_c10).total_net := by
  have hv : wit_input_c10.Valid := by norm_num [Inputs.Valid, wit_input_c10]
  exact ⟨hv, C10_total_net_nonneg wit_input_c10 hv⟩

end UomRedundancy
